import Mathlib

/-!
Verification of the TorchPruner attribution-metric engine against its
specification.

The repository ships the test suite (`src/torchpruner/tests/test_attributions.py`)
and the experiment glue (`src/experiments/utils.py`); the attribution metric
implementations themselves (`torchpruner` package) are not part of the sources
available here, so the metric operations are modelled from the specification,
faithful to its words, and checked against the reference fixtures that *are*
in the sources (the `max_model` network, its dataset and the expected score
vectors asserted by the tests).

All arithmetic is exact rational arithmetic (`ℚ`); the fixtures only involve
dyadic/decimal values, so every expected vector of the tests is representable
exactly.
-/

namespace TorchPruner

/-- A vector of rational scores / activations. -/
abbrev Vec := List ℚ

/-- One batch of the data source: an input vector and a scalar label
(batch size 1, as in the reference tests). -/
abbrev Batch := Vec × ℚ

/-- A finite, restartable, ordered data source. -/
abbrev Dataset := List Batch

/-- Absolute value on ℚ, written so that it evaluates by `decide`. -/
def qabs (q : ℚ) : ℚ := if q < 0 then -q else q

/-- Maximum on ℚ, written so that it evaluates by `decide`. -/
def qmax (a b : ℚ) : ℚ := if a ≤ b then b else a

/-- Dot product of two vectors (zipped termwise product, summed). -/
def dot (xs ys : Vec) : ℚ := (List.zipWith (fun a b => a * b) xs ys).sum

/-- Arithmetic mean of a list of rationals (0 on the empty list). -/
def meanQ (xs : List ℚ) : ℚ := xs.sum / (xs.length : ℚ)

/-- The model of the reference architecture: a linear layer without bias
(`w1`, one row of incoming weights per hidden unit), a ReLU, and a second
linear layer without bias mapping the hidden units to one scalar output
(`w2`, the outgoing weight of each hidden unit).  `w1` is the first layer's
learnable weight tensor exactly as PyTorch stores it (`out_features` rows). -/
structure Net where
  w1 : List Vec
  w2 : Vec
deriving DecidableEq

/-- The unit count of the target (first) layer: its output width, i.e. the
number of rows of its weight tensor. -/
def unitCount (net : Net) : ℕ := net.w1.length

/-- Pre-activation output of the target layer on one input. -/
def preact (net : Net) (x : Vec) : Vec := net.w1.map (fun row => dot row x)

/-- Post-ReLU activation of the hidden units on one input. -/
def hiddenAct (net : Net) (x : Vec) : Vec := (preact net x).map (fun z => qmax z 0)

/-- Scalar model output on one input. -/
def modelOutput (net : Net) (x : Vec) : ℚ := dot (hiddenAct net x) net.w2

/-- Mean-squared-error loss for a scalar prediction and scalar label
(batch size 1, one output). -/
def mseLoss (p y : ℚ) : ℚ := (p - y) * (p - y)

/-- Gradient of the loss with respect to the model output on one batch. -/
def outGrad (net : Net) (b : Batch) : ℚ := 2 * (modelOutput net b.1 - b.2)

/-- Gradient of the loss with respect to the target layer's output for unit
`j` on one batch: the ReLU passes the gradient only where the pre-activation
is strictly positive, then the second layer scales it by the unit's outgoing
weight. -/
def actGrad (net : Net) (b : Batch) (j : ℕ) : ℚ :=
  (if 0 < (preact net b.1).getD j 0 then 1 else 0) * net.w2.getD j 0 * outGrad net b

/-! ### Reference fixtures (`max_model` in `test_attributions.py`) -/

/-- The 4-sample dataset of the tests: inputs `[[0,1],[1,0],[1,2],[2,1]]`
with labels `max` of the two inputs. -/
def maxDataset : Dataset := [([0, 1], 1), ([1, 0], 1), ([1, 2], 2), ([2, 1], 2)]

/-- Fixture version 1: the exact solution of max-of-two-inputs.  `w1` is
`torch.t` of the matrix written in the test, i.e. one row per hidden unit. -/
def maxNet1 : Net :=
  { w1 := [[-1/2, 1/2], [1, -1], [1, 1], [1, 1]]
    w2 := [1, 1/2, 1/2, 0] }

/-- Fixture version 2: identical to the exact solution except that unit D's
outgoing weight is `-0.1` instead of `0`. -/
def maxNet2 : Net :=
  { w1 := [[-1/2, 1/2], [1, -1], [1, 1], [1, 1]]
    w2 := [1, 1/2, 1/2, -1/10] }

/-! ### Attribution metrics -/

/-- Modelled from the spec: `RandomAttributionMetric` (implementation not in
the sources) produces one random score per unit from a seedable random
source, independent of data.  The random source is made explicit as a
function from unit index to score. -/
def randomRun (rand : ℕ → ℚ) (net : Net) : Vec :=
  (List.range (unitCount net)).map rand

/-- Modelled from the spec: `WeightNormAttributionMetric` (implementation not
in the sources) sums, for each unit, the absolute values of that unit's
weights in the target layer's learnable weight tensor; no forward or
backward pass. -/
def weightNormRun (net : Net) : Vec :=
  net.w1.map (fun row => (row.map qabs).sum)

/-- Modelled from the spec: `APoZAttributionMetric` as the spec describes it
(implementation not in the sources) — for each unit, the fraction of its
captured post-nonlinearity activation entries that are exactly zero,
averaged over all batches.  With batch size 1 and no spatial dimensions each
batch contributes 0 or 1 per unit. -/
def apozZeroRun (net : Net) (data : Dataset) : Vec :=
  (List.range (unitCount net)).map (fun j =>
    meanQ (data.map (fun b => if (hiddenAct net b.1).getD j 0 = 0 then 1 else 0)))

/-- Modelled from the spec: `APoZAttributionMetric` as attested by the
reference fixture vector `[0.5, 0.5, 1, 1]` (implementation not in the
sources) — for each unit, the fraction of its captured post-nonlinearity
activation entries that are nonzero, averaged over all batches. -/
def apozRun (net : Net) (data : Dataset) : Vec :=
  (List.range (unitCount net)).map (fun j =>
    meanQ (data.map (fun b => if (hiddenAct net b.1).getD j 0 = 0 then 0 else 1)))

/-- Modelled from the spec: `SensitivityAttributionMetric` (implementation
not in the sources) runs one forward+backward pass per batch and, for each
unit, accumulates the magnitude of the loss gradient at the target layer's
output, averaged over batches.  The exact accumulation formula is
reverse-derived from the reference fixture vectors, as the spec instructs. -/
def sensitivityRun (net : Net) (data : Dataset) : Vec :=
  (List.range (unitCount net)).map (fun j =>
    meanQ (data.map (fun b => qabs (actGrad net b j))))

/-- First-order Taylor term for unit `j` on one batch: the estimated change
in loss if the unit were zeroed, `-(activation * gradient)`. -/
def taylorTerm (net : Net) (b : Batch) (j : ℕ) : ℚ :=
  -((hiddenAct net b.1).getD j 0 * actGrad net b j)

/-- Modelled from the spec: `TaylorAttributionMetric` (implementation not in
the sources) accumulates the first-order Taylor term `activation * gradient`
per batch, averaged over the dataset; unsigned mode (default) takes the
absolute value of each per-batch contribution before accumulating, signed
mode preserves its sign. -/
def taylorRun (signed : Bool) (net : Net) (data : Dataset) : Vec :=
  (List.range (unitCount net)).map (fun j =>
    meanQ (data.map (fun b =>
      if signed then taylorTerm net b j else qabs (taylorTerm net b j))))

/-! ### Shapley estimator -/

/-- Model output with the activations of all units outside the coalition `S`
masked (zeroed) during the forward pass through the target layer. -/
def maskedOutput (net : Net) (S : List ℕ) (x : Vec) : ℚ :=
  ((List.range (unitCount net)).map (fun j =>
    if j ∈ S then (hiddenAct net x).getD j 0 * net.w2.getD j 0 else 0)).sum

/-- Mean loss over the data source when only the units in coalition `S` are
active. -/
def coalitionLoss (net : Net) (data : Dataset) (S : List ℕ) : ℚ :=
  meanQ (data.map (fun b => mseLoss (maskedOutput net S b.1) b.2))

/-- Marginal contribution attributed to unit `j` within one permutation:
the loss delta between the coalition of units preceding `j` and that
coalition with `j` added. -/
def marginalOf (net : Net) (data : Dataset) (p : List ℕ) (j : ℕ) : ℚ :=
  let before := p.takeWhile (fun i => i ≠ j)
  coalitionLoss net data before - coalitionLoss net data (before ++ [j])

/-- Modelled from the spec: `ShapleyAttributionMetric.run` (implementation
not in the sources) — each Monte-Carlo iteration draws a random permutation
of unit indices, grows a coalition one unit at a time, and attributes the
loss delta between consecutive coalitions to the newly added unit; the final
score is the sample mean.  The drawn permutations are made explicit as an
argument, so instantiating `perms` with every permutation of the unit
indices yields the estimator's exact expected value. -/
def shapleyRun (net : Net) (data : Dataset) (perms : List (List ℕ)) : Vec :=
  (List.range (unitCount net)).map (fun j =>
    (perms.map (fun p => marginalOf net data p j)).sum / (perms.length : ℚ))

/-- All ways of inserting `a` into a list. -/
def insertions (a : ℕ) : List ℕ → List (List ℕ)
  | [] => [[a]]
  | b :: bs => (a :: b :: bs) :: (insertions a bs).map (fun l => b :: l)

/-- Every permutation of a list, each exactly once. -/
def allPermsOf : List ℕ → List (List ℕ)
  | [] => [[]]
  | a :: as => ((allPermsOf as).map (insertions a)).flatten

/-- Every permutation of the unit indices `0 .. n-1`, each exactly once:
instantiating the Shapley estimator on this list computes its exact
expectation over a uniformly drawn permutation. -/
def allPerms (n : ℕ) : List (List ℕ) := allPermsOf (List.range n)

/-- Error taxonomy of the spec. -/
inductive PrunerError where
  | invalidConfiguration
  | invalidLayer
  | deviceMismatch
deriving DecidableEq

/-- Modelled from the spec: validation of the Shapley estimator's
`sv_samples` configuration (implementation not in the sources) — the sample
count must be explicitly supplied (it is a mandatory argument here) and a
non-positive value fails with `InvalidConfigurationError`. -/
def mkShapleySamples (svSamples : ℤ) : Except PrunerError ℤ :=
  if svSamples ≤ 0 then Except.error PrunerError.invalidConfiguration
  else Except.ok svSamples

/-! ### Instrumented model state

The spec's Instrumentation Layer attaches a transient observer to the target
layer for the duration of a `run` call and detaches it afterwards; metrics
may temporarily rewire the forward computation but never persist mutations to
the model's learnable parameters.  The model state carries the weights
together with the number of currently attached observers, and each metric's
stateful `run` is the scoped attach/compute/detach sequence. -/

/-- A model as owned by the caller: its learnable weights (`net`) plus the
transient observation handles currently attached to it. -/
structure ModelState where
  net : Net
  observers : ℕ
deriving DecidableEq

/-- Attach one transient observer to the target layer. -/
def attachObserver (m : ModelState) : ModelState :=
  { m with observers := m.observers + 1 }

/-- Detach one observer from the target layer. -/
def detachObserver (m : ModelState) : ModelState :=
  { m with observers := m.observers - 1 }

/-- Modelled from the spec: a data-driven metric's `run` (implementation not
in the sources) attaches an observer, computes its scores from the weights
and the data by pure forward/backward passes, and detaches the observer on
exit. -/
def instrumentedRun (compute : Net → Dataset → Vec)
    (m : ModelState) (data : Dataset) : Vec × ModelState :=
  let m1 := attachObserver m
  let scores := compute m1.net data
  (scores, detachObserver m1)

/-- Stateful `run` of the Random metric: no data pass, no instrumentation. -/
def randomState (rand : ℕ → ℚ) (m : ModelState) (data : Dataset) : Vec × ModelState :=
  let _ := data
  (randomRun rand m.net, m)

/-- Stateful `run` of the WeightNorm metric: computed from static model
state, no data pass, no instrumentation; the data source argument is
ignored. -/
def weightNormState (m : ModelState) (data : Dataset) : Vec × ModelState :=
  let _ := data
  (weightNormRun m.net, m)

/-- Stateful `run` of the APoZ metric. -/
def apozState (m : ModelState) (data : Dataset) : Vec × ModelState :=
  instrumentedRun apozRun m data

/-- Stateful `run` of the Sensitivity metric. -/
def sensitivityState (m : ModelState) (data : Dataset) : Vec × ModelState :=
  instrumentedRun sensitivityRun m data

/-- Stateful `run` of the Taylor metric. -/
def taylorState (signed : Bool) (m : ModelState) (data : Dataset) : Vec × ModelState :=
  instrumentedRun (taylorRun signed) m data

/-- Stateful `run` of the Shapley metric: validates `sv_samples` first and
fails with `InvalidConfigurationError` without touching the model when it is
non-positive; otherwise runs the masked passes under a scoped observer. -/
def shapleyState (svSamples : ℤ) (perms : List (List ℕ))
    (m : ModelState) (data : Dataset) : Except PrunerError Vec × ModelState :=
  match mkShapleySamples svSamples with
  | Except.error e => (Except.error e, m)
  | Except.ok _ =>
    let m1 := attachObserver m
    (Except.ok (shapleyRun m1.net data perms), detachObserver m1)

end TorchPruner

namespace ExperimentsUtils

/-! ### CSV logging (`log_dict` in `src/experiments/utils.py`)

`log_dict` opens the target file in append mode, writes the header row (the
dict's keys) when `csvfile.tell() == 0` — i.e. exactly when the file is
empty — and then writes one data row.  The file is modelled as the list of
CSV rows it contains. -/

/-- A dictionary passed to `log_dict`: ordered key/value pairs. -/
abbrev Dict := List (String × String)

/-- One row of the CSV file: either a header row of keys or a data row. -/
inductive CsvRow where
  | header (keys : List String)
  | data (entries : Dict)
deriving DecidableEq

/-- Whether a row is a header row. -/
def CsvRow.isHeader : CsvRow → Bool
  | CsvRow.header _ => true
  | CsvRow.data _ => false

/-- `log_dict`: append to the file, writing the header first when and only
when the file is empty at the time of the call (`csvfile.tell() == 0` in
append mode), then exactly one data row. -/
def logDict (file : List CsvRow) (d : Dict) : List CsvRow :=
  file
    ++ (if file.isEmpty then [CsvRow.header (d.map Prod.fst)] else [])
    ++ [CsvRow.data d]

/-- A sequence of `log_dict` calls on the same file, starting from the empty
(or not yet existing) file. -/
def logAll (ds : List Dict) : List CsvRow := ds.foldl logDict []

/-- Number of header rows in a file. -/
def headerCount (file : List CsvRow) : ℕ := (file.filter CsvRow.isHeader).length

/-- Number of data rows in a file. -/
def dataCount (file : List CsvRow) : ℕ := (file.filter (fun r => !r.isHeader)).length

end ExperimentsUtils

namespace TorchPruner

/-- Componentwise closeness of two score vectors up to tolerance `t`
(the tolerance of `np.testing.assert_array_almost_equal` with `decimal=1`
is `1.5 * 10 ^ (-1)`). -/
def withinTol (xs ys : List ℚ) (t : ℚ) : Prop :=
  xs.length = ys.length ∧ ∀ p ∈ List.zip xs ys, qabs (p.1 - p.2) ≤ t

instance (xs ys : List ℚ) (t : ℚ) : Decidable (withinTol xs ys t) :=
  inferInstanceAs (Decidable (_ ∧ _))

/-! ### Claim theorems -/

/-- C1: for every attribution metric (Random, WeightNorm, APoZ, Sensitivity,
Taylor, Shapley), `run` on the target layer returns a score vector whose
length equals the layer's unit count (its output width); in particular the
reference networks' first linear layer has 4 units, so every metric's run on
them returns a vector of shape `[4]`. -/
theorem run_length_eq_unit_count :
    (∀ (rand : ℕ → ℚ) (net : Net), (randomRun rand net).length = unitCount net) ∧
    (∀ net : Net, (weightNormRun net).length = unitCount net) ∧
    (∀ (net : Net) (data : Dataset), (apozRun net data).length = unitCount net) ∧
    (∀ (net : Net) (data : Dataset), (sensitivityRun net data).length = unitCount net) ∧
    (∀ (signed : Bool) (net : Net) (data : Dataset),
      (taylorRun signed net data).length = unitCount net) ∧
    (∀ (net : Net) (data : Dataset) (perms : List (List ℕ)),
      (shapleyRun net data perms).length = unitCount net) ∧
    unitCount maxNet1 = 4 ∧ unitCount maxNet2 = 4 := by
  refine ⟨?_, ?_, ?_, ?_, ?_, ?_, rfl, rfl⟩ <;> intros <;>
    simp [randomRun, weightNormRun, apozRun, sensitivityRun, taylorRun,
      shapleyRun, unitCount]

/-- C2 counterexample: the fraction of *zero* activation entries per unit of
the first layer, averaged over the 4 batches, is `[0.5, 0.5, 0, 0]` on the
exact-solution network — not the vector `[0.5, 0.5, 1, 1]` that the claim
(and the test) state APoZ returns. -/
theorem apoz_zero_fraction_ne_test_vector :
    apozZeroRun maxNet1 maxDataset = [1/2, 1/2, 0, 0] ∧
    apozZeroRun maxNet1 maxDataset ≠ [1/2, 1/2, 1, 1] := by
  have hr : List.range 4 = [0, 1, 2, 3] := rfl
  have h : apozZeroRun maxNet1 maxDataset = [1/2, 1/2, 0, 0] := by
    norm_num [apozZeroRun, maxNet1, maxDataset, unitCount, hiddenAct, preact, dot,
      qmax, meanQ, hr]
  refine ⟨h, ?_⟩
  rw [h]
  intro hc
  norm_num at hc

/-- C2 amended: APoZ accumulates, for each unit of the target layer, the
fraction of its captured activation entries that are *nonzero*, averaged
over all batches; on the exact-solution max network with the 4-sample
dataset it returns exactly `[0.5, 0.5, 1, 1]`. -/
theorem apoz_nonzero_fraction_on_max_model :
    apozRun maxNet1 maxDataset = [1/2, 1/2, 1, 1] := by
  have hr : List.range 4 = [0, 1, 2, 3] := rfl
  norm_num [apozRun, maxNet1, maxDataset, unitCount, hiddenAct, preact, dot, qmax,
    meanQ, hr]

/-- C3: on the exact-solution network (fixture version 1) with
mean-squared-error loss over the symmetric 4-sample dataset, both the
Sensitivity metric's run and the (unsigned, default) Taylor metric's run on
the first layer return exactly `[0, 0, 0, 0]`. -/
theorem sensitivity_taylor_zero_on_exact_solution :
    sensitivityRun maxNet1 maxDataset = [0, 0, 0, 0] ∧
    taylorRun false maxNet1 maxDataset = [0, 0, 0, 0] := by
  have hr : List.range 4 = [0, 1, 2, 3] := rfl
  constructor <;>
    norm_num [sensitivityRun, taylorRun, taylorTerm, maxNet1, maxDataset, unitCount,
      hiddenAct, preact, dot, qmax, qabs, meanQ, actGrad, outGrad, modelOutput, hr]

/-- C4: on the variant network (fixture version 2, unit D's outgoing weight
`-0.1`), the first layer's Sensitivity scores are `[0.2, 0.1, 0.2, 0.04]`,
the unsigned Taylor scores are `[0.1, 0.1, 0.5, 0.1]`, and the signed Taylor
scores are `[0.1, 0.1, 0.5, -0.1]`; unsigned mode is the absolute value of
signed mode, and unit D — whose removal (masking) strictly decreases the
loss — gets a strictly negative signed score. -/
theorem sensitivity_taylor_on_variant_network :
    sensitivityRun maxNet2 maxDataset = [2/10, 1/10, 2/10, 4/100] ∧
    taylorRun false maxNet2 maxDataset = [1/10, 1/10, 5/10, 1/10] ∧
    taylorRun true maxNet2 maxDataset = [1/10, 1/10, 5/10, -1/10] ∧
    taylorRun false maxNet2 maxDataset = (taylorRun true maxNet2 maxDataset).map qabs ∧
    coalitionLoss maxNet2 maxDataset [0, 1, 2] <
      coalitionLoss maxNet2 maxDataset [0, 1, 2, 3] ∧
    (taylorRun true maxNet2 maxDataset).getD 3 0 < 0 := by
  have hr : List.range 4 = [0, 1, 2, 3] := rfl
  have hsigned : taylorRun true maxNet2 maxDataset = [1/10, 1/10, 5/10, -1/10] := by
    norm_num [taylorRun, taylorTerm, maxNet2, maxDataset, unitCount, hiddenAct, preact,
      dot, qmax, meanQ, actGrad, outGrad, modelOutput, hr]
  have hunsigned : taylorRun false maxNet2 maxDataset = [1/10, 1/10, 5/10, 1/10] := by
    norm_num [taylorRun, taylorTerm, maxNet2, maxDataset, unitCount, hiddenAct, preact,
      dot, qmax, qabs, meanQ, actGrad, outGrad, modelOutput, hr]
  refine ⟨?_, hunsigned, hsigned, ?_, ?_, ?_⟩
  · norm_num [sensitivityRun, maxNet2, maxDataset, unitCount, hiddenAct, preact, dot,
      qmax, qabs, meanQ, actGrad, outGrad, modelOutput, hr]
  · rw [hsigned, hunsigned]
    norm_num [qabs]
  · norm_num [coalitionLoss, maskedOutput, maxNet2, maxDataset, unitCount, hiddenAct,
      preact, dot, qmax, meanQ, mseLoss, hr]
  · rw [hsigned]
    norm_num

set_option maxHeartbeats 2000000 in
/-- C5: the Shapley estimator attributes to each unit the mean, over the
drawn permutations, of the loss delta between the coalition preceding the
unit and that coalition with the unit added, all other units' activations
masked to zero; its exact expected value — the estimate over every one of
the 24 permutations of the 4 unit indices, to which the seeded 1000-sample
estimate converges — is `[3/8, 3/8, 7/4, 0]` on the exact-solution network,
equal to `[0.37, 0.37, 1.7, 0.0]` within the tests' one-decimal tolerance
`0.15`. -/
theorem shapley_expectation_on_exact_solution :
    shapleyRun maxNet1 maxDataset (allPerms (unitCount maxNet1)) = [3/8, 3/8, 7/4, 0] ∧
    withinTol (shapleyRun maxNet1 maxDataset (allPerms (unitCount maxNet1)))
      [37/100, 37/100, 17/10, 0] (15/100) := by
  have hr : List.range 4 = [0, 1, 2, 3] := rfl
  have h : shapleyRun maxNet1 maxDataset (allPerms (unitCount maxNet1)) =
      [3/8, 3/8, 7/4, 0] := by
    norm_num [shapleyRun, allPerms, allPermsOf, insertions, hr, unitCount, maxNet1,
      maxDataset, marginalOf, coalitionLoss, maskedOutput, meanQ, mseLoss, hiddenAct,
      preact, dot, qmax, List.takeWhile]
  refine ⟨h, ?_⟩
  rw [h]
  norm_num [withinTol, qabs]

/-- C6: WeightNorm sums, for each unit of the target layer, the absolute
values of that unit's weights in the layer's learnable weight tensor,
without any data pass; on the exact-solution network's first layer it
returns exactly `[1, 2, 2, 2]`. -/
theorem weight_norm_on_max_model :
    weightNormRun maxNet1 = [1, 2, 2, 2] := by
  norm_num [weightNormRun, maxNet1, qabs]

/-- C7: constructing the Shapley estimator with `sv_samples ≤ 0` fails with
`InvalidConfigurationError`, and it succeeds exactly when `sv_samples` is
positive (the sample count is a mandatory argument of the model, mirroring
the spec's "must be explicitly supplied"). -/
theorem shapley_samples_validation :
    ∀ s : ℤ,
      (mkShapleySamples s = Except.error PrunerError.invalidConfiguration ↔ s ≤ 0) ∧
      (mkShapleySamples s = Except.ok s ↔ 0 < s) := by
  intro s
  by_cases h : s ≤ 0 <;> simp [mkShapleySamples, h]
  all_goals omega

/-- C8: every metric's run leaves the model state — in particular its stored
learnable weights — exactly as it found it: instrumentation is scoped
(attach, compute, detach), and the Shapley run restores the state on the
error path as well. -/
theorem run_preserves_model_state :
    ∀ (m : ModelState) (data : Dataset) (rand : ℕ → ℚ) (signed : Bool)
      (svSamples : ℤ) (perms : List (List ℕ)),
      (randomState rand m data).2 = m ∧
      (weightNormState m data).2 = m ∧
      (apozState m data).2 = m ∧
      (sensitivityState m data).2 = m ∧
      (taylorState signed m data).2 = m ∧
      (shapleyState svSamples perms m data).2 = m := by
  intro m data rand signed s perms
  refine ⟨rfl, rfl, ?_, ?_, ?_, ?_⟩
  · simp [apozState, instrumentedRun, attachObserver, detachObserver]
  · simp [sensitivityState, instrumentedRun, attachObserver, detachObserver]
  · simp [taylorState, instrumentedRun, attachObserver, detachObserver]
  · by_cases h : s ≤ 0
    all_goals simp [shapleyState, mkShapleySamples, h, attachObserver, detachObserver]

/-- C9: for the deterministic and gradient-based metrics (WeightNorm, APoZ,
Sensitivity, Taylor), running twice in sequence — the second run on the
model state the first run returned — yields identical score vectors; and
WeightNorm is data-independent: its score vector is the same for any two
data sources. -/
theorem run_idempotent_for_deterministic_metrics :
    ∀ (m : ModelState) (data data2 : Dataset) (signed : Bool),
      (weightNormState (weightNormState m data).2 data).1 = (weightNormState m data).1 ∧
      (apozState (apozState m data).2 data).1 = (apozState m data).1 ∧
      (sensitivityState (sensitivityState m data).2 data).1 = (sensitivityState m data).1 ∧
      (taylorState signed (taylorState signed m data).2 data).1 =
        (taylorState signed m data).1 ∧
      (weightNormState m data).1 = (weightNormState m data2).1 := by
  intro m data data2 signed
  refine ⟨rfl, ?_, ?_, ?_, rfl⟩
  all_goals
    simp [apozState, sensitivityState, taylorState, instrumentedRun,
      attachObserver, detachObserver]

end TorchPruner

namespace ExperimentsUtils

/-- Header rows in a concatenation. -/
theorem headerCount_append (l1 l2 : List CsvRow) :
    headerCount (l1 ++ l2) = headerCount l1 + headerCount l2 := by
  simp [headerCount, List.filter_append]

/-- Data rows in a concatenation. -/
theorem dataCount_append (l1 l2 : List CsvRow) :
    dataCount (l1 ++ l2) = dataCount l1 + dataCount l2 := by
  simp [dataCount, List.filter_append]

/-- A single data row holds no header. -/
theorem headerCount_data_singleton (es : Dict) :
    headerCount [CsvRow.data es] = 0 := rfl

/-- A single data row counts as one data row. -/
theorem dataCount_data_singleton (es : Dict) :
    dataCount [CsvRow.data es] = 1 := rfl

/-- Folding further `log_dict` calls onto a nonempty file never adds a
header row, keeps the first row, and appends exactly one data row per
call. -/
theorem foldl_logDict_cons :
    ∀ (ds : List Dict) (a : CsvRow) (rest : List CsvRow),
      (ds.foldl logDict (a :: rest)).head? = some a ∧
      headerCount (ds.foldl logDict (a :: rest)) = headerCount (a :: rest) ∧
      dataCount (ds.foldl logDict (a :: rest)) = dataCount (a :: rest) + ds.length := by
  intro ds
  induction ds with
  | nil => intro a rest; exact ⟨rfl, rfl, rfl⟩
  | cons d ds ih =>
    intro a rest
    have hstep : logDict (a :: rest) d = a :: (rest ++ [CsvRow.data d]) := by
      simp [logDict]
    have h := ih a (rest ++ [CsvRow.data d])
    have hcons : a :: (rest ++ [CsvRow.data d]) = (a :: rest) ++ [CsvRow.data d] := rfl
    simp only [List.foldl_cons, hstep]
    refine ⟨h.1, ?_, ?_⟩
    · rw [h.2.1, hcons, headerCount_append, headerCount_data_singleton, Nat.add_zero]
    · rw [h.2.2, hcons, dataCount_append, dataCount_data_singleton, List.length_cons]
      omega

/-- C10: each `log_dict` call appends exactly one data row and writes a
header row exactly when the file is empty at the time of the call;
consequently any nonempty sequence of `log_dict` calls starting from an
empty (or not yet existing) file produces a file with exactly one header
row — the keys of the first dict — as its first line, and one data row per
call. -/
theorem log_dict_header_and_rows :
    (∀ (file : List CsvRow) (d : Dict),
      headerCount (logDict file d) =
        headerCount file + (if file.isEmpty then 1 else 0) ∧
      dataCount (logDict file d) = dataCount file + 1) ∧
    (∀ (d : Dict) (ds : List Dict),
      headerCount (logAll (d :: ds)) = 1 ∧
      (logAll (d :: ds)).head? = some (CsvRow.header (d.map Prod.fst)) ∧
      dataCount (logAll (d :: ds)) = ds.length + 1) := by
  constructor
  · intro file d
    cases file with
    | nil => exact ⟨rfl, rfl⟩
    | cons a rest =>
      have hstep : logDict (a :: rest) d = (a :: rest) ++ [CsvRow.data d] := by
        simp [logDict]
      rw [hstep]
      constructor
      · rw [headerCount_append, headerCount_data_singleton]
        simp
      · rw [dataCount_append, dataCount_data_singleton]
  · intro d ds
    have hfirst : logDict [] d = CsvRow.header (d.map Prod.fst) :: [CsvRow.data d] := rfl
    have h := foldl_logDict_cons ds (CsvRow.header (d.map Prod.fst)) [CsvRow.data d]
    have hall : logAll (d :: ds) =
        ds.foldl logDict (CsvRow.header (d.map Prod.fst) :: [CsvRow.data d]) := by
      simp only [logAll, List.foldl_cons, hfirst]
    rw [hall]
    refine ⟨?_, h.1, ?_⟩
    · rw [h.2.1]; rfl
    · rw [h.2.2, show dataCount (CsvRow.header (d.map Prod.fst) :: [CsvRow.data d]) = 1
        from rfl]
      omega

end ExperimentsUtils
